import Mathlib

/-!
Verification development for the Image Pictionary round-lifecycle controller.

The definitions below are a shallow embedding of the round controller found
in the application root component (`App`): game status, round state, the
round-start orchestration with its prefetch slot and round-identity guard,
guess handling, and the win / wrong-guess / timeout paths.  Asynchronous
completions (content fetches, prefetches, the wrong-guess clearing timeout)
are modelled as explicit state-transition functions carrying the identifiers
the source closures capture (`roundId`, the prefetch promise, the timeout).
-/

def ROUND_TIME : Nat := 30

inductive GameStatus
  | idle
  | loading
  | playing
  | won
  | lost
deriving DecidableEq

/-- The `{concept, explanation, imageUrl}` record produced by the content
provider (`getNewGameData`). -/
structure GameData where
  concept : String
  explanation : String
  imageUrl : String
deriving DecidableEq

/-- An event sent to the chat side channel via `handleGameEvent`
(`{forUser?, forAI?}`). -/
structure GameEvent where
  forUser : Option String := none
  forAI : Option String := none
deriving DecidableEq

/-- The centralized application state of the `App` component: every
`useState`/`useRef` cell the round controller owns.  `events` is the
append-only log of notifications handed to the chat panel;
`pendingClears` records the delays (ms) of scheduled wrong-guess clearing
timeouts; `promiseCounter` allocates identities for prefetch promises. -/
structure AppState where
  gameStatus : GameStatus
  imageUrl : String
  imageStyle : String
  answer : String
  explanation : String
  guessValue : String
  isWrongGuess : Bool
  timeLeft : Nat
  error : Option String
  loadingMessage : String
  score : Nat
  level : Nat
  pastConcepts : List String
  prefetchedGameData : Option GameData
  nextGamePromise : Option Nat
  promiseCounter : Nat
  roundId : Nat
  timerActive : Bool
  pendingClears : List Nat
  events : List GameEvent
deriving DecidableEq

/-- Initial state of the component (all `useState` initializers). -/
def initialState : AppState :=
  { gameStatus := GameStatus.idle
    imageUrl := ""
    imageStyle := "pixel art"
    answer := ""
    explanation := ""
    guessValue := ""
    isWrongGuess := false
    timeLeft := ROUND_TIME
    error := none
    loadingMessage := ""
    score := 0
    level := 1
    pastConcepts := []
    prefetchedGameData := none
    nextGamePromise := none
    promiseCounter := 0
    roundId := 0
    timerActive := false
    pendingClears := []
    events := [] }

def emitEvent (e : GameEvent) (s : AppState) : AppState :=
  { s with events := s.events ++ [e] }

/-- `answer.replace(/\s/g, '')`. -/
def stripWhitespace (x : String) : String :=
  (x.toList.filter (fun c => !c.isWhitespace)).asString

/-- `rawValue.replace(/[^a-zA-Z0-9]/g, '')`. -/
def sanitizeInput (raw : String) : String :=
  (raw.toList.filter Char.isAlphanum).asString

/-- `x.toLowerCase()`, character by character. -/
def toLowerStr (x : String) : String :=
  (x.toList.map Char.toLower).asString

def levelUpEvent (lvl : Nat) : GameEvent :=
  { forUser := some ("You have reached Level " ++ toString lvl ++ "!") }

def levelCongrats (lvl : Nat) : String :=
  " The user also just reached Level " ++ toString lvl ++
    "! After explaining the image, congratulate them in a fun, celebratory way about this achievement."

def winAIEvent (ans expl congrats : String) : GameEvent :=
  { forAI := some ("Game Event: User guessed correctly. The answer was \"" ++ ans ++
      "\". Here is the explanation for the image: " ++ expl ++ "." ++ congrats) }

def kickoffAIEvent (concept expl : String) : GameEvent :=
  { forAI := some ("Game Event: I have just created an image. The concept is \"" ++ concept ++
      "\". My idea for creating it was: " ++ expl ++
      ". Now, please provide a short, engaging, first-person message to the user to kick off the guessing round.") }

def thinkingAIEvent : GameEvent :=
  { forAI := some "Game Event: The user wants a new round. Please respond with a short message (3-6 words) saying you are thinking of a new movie to create an image for." }

def timeUpAIEvent (ans expl : String) : String :=
  "Game Event: Time ran out. The answer was \"" ++ ans ++
    "\". Here is the explanation for the image: " ++ expl

/-- `handleCorrectGuess`: stop timer, status → Won, score+1, recompute level,
emit the Correct notice, the level-up notice when the level increased, then
the AI event carrying the answer and explanation. -/
def handleCorrectGuess (s : AppState) : AppState :=
  if s.gameStatus ≠ GameStatus.playing then s
  else
    let s1 := { s with gameStatus := GameStatus.won, timerActive := false }
    let newScore := s1.score + 1
    let s2 := { s1 with score := newScore }
    let oldLevel := s2.level
    let newLevel := newScore / 5 + 1
    let s3 := emitEvent { forUser := some "Correct." } s2
    if newLevel > oldLevel then
      let s4 := { s3 with level := newLevel }
      let s5 := emitEvent (levelUpEvent newLevel) s4
      emitEvent (winAIEvent s5.answer s5.explanation (levelCongrats newLevel)) s5
    else
      emitEvent (winAIEvent s3.answer s3.explanation "") s3

/-- `handleIncorrectGuess`: set the wrong-guess flag and schedule a 1000 ms
timeout that will clear the guess and the flag. -/
def handleIncorrectGuess (s : AppState) : AppState :=
  { s with isWrongGuess := true, pendingClears := s.pendingClears ++ [1000] }

/-- The body of the `setTimeout` scheduled by `handleIncorrectGuess`: it
checks only that the component is still mounted (modelled as always true)
and then clears the guess and the flag unconditionally — there is no round
identity comparison in the source. -/
def wrongGuessTimeoutFire (s : AppState) : AppState :=
  { s with guessValue := "", isWrongGuess := false,
           pendingClears := s.pendingClears.drop 1 }

/-- `handleTimeUp`: status → Lost, stop timer, emit the time-ran-out event. -/
def handleTimeUp (s : AppState) : AppState :=
  let s1 := { s with gameStatus := GameStatus.lost, timerActive := false }
  emitEvent { forUser := some "Time ran out.",
              forAI := some (timeUpAIEvent s1.answer s1.explanation) } s1

/-- The guess-evaluation effect (`useEffect` over `guessValue`): when
playing, with a non-empty answer and the wrong-guess flag clear, a
full-length guess is compared case-insensitively against the
whitespace-stripped answer. -/
def evaluateGuess (s : AppState) : AppState :=
  if s.gameStatus ≠ GameStatus.playing ∨ s.answer = "" ∨ s.isWrongGuess = true then s
  else
    let answerSanitized := stripWhitespace s.answer
    if s.guessValue.length = answerSanitized.length then
      if toLowerStr s.guessValue = toLowerStr answerSanitized then handleCorrectGuess s
      else handleIncorrectGuess s
    else s

/-- `handleGuessChange` in `App`: rejected while the wrong-guess flag is set. -/
def handleGuessChange (value : String) (s : AppState) : AppState :=
  if s.isWrongGuess = true then s else { s with guessValue := value }

/-- `handleInput` in the `GuessInput` component: no-op when disabled (any
status other than Playing) or while the wrong-guess flag is set; otherwise
the raw value is stripped of non-alphanumerics, truncated to the sanitized
answer length, and passed to `handleGuessChange`. -/
def handleInput (raw : String) (s : AppState) : AppState :=
  let isDisabled := s.gameStatus = GameStatus.idle ∨ s.gameStatus = GameStatus.loading ∨
      s.gameStatus = GameStatus.won ∨ s.gameStatus = GameStatus.lost
  if isDisabled ∨ s.isWrongGuess = true then s
  else
    let answerSanitizedLength := (stripWhitespace s.answer).length
    let sanitizedValue := sanitizeInput raw
    let truncatedValue := (sanitizedValue.toList.take answerSanitizedLength).asString
    handleGuessChange truncatedValue s

/-- One keystroke delivered to the controlled input followed by the
guess-evaluation effect the resulting state change triggers. -/
def submitInput (raw : String) (s : AppState) : AppState :=
  evaluateGuess (handleInput raw s)

def runInputs (raws : List String) (s : AppState) : AppState :=
  raws.foldl (fun st raw => submitInput raw st) s

/-- `prefetchNextRound`: no-op when a prefetch promise is already held;
otherwise issue exactly one provider call (returned as the excluded-concepts
list and style of that call) and store its handle.  The exclusion set adds
the just-finished answer when one exists. -/
def prefetchNextRound (s : AppState) : AppState × Option (List String × String) :=
  if s.nextGamePromise.isSome then (s, none)
  else
    let conceptsToExclude := if s.answer ≠ "" then s.pastConcepts ++ [s.answer] else s.pastConcepts
    let pid := s.promiseCounter + 1
    ({ s with promiseCounter := pid, nextGamePromise := some pid },
     some (conceptsToExclude, s.imageStyle))

/-- The `.then` continuation of the prefetch promise `pid`: the data is
stored only when `pid` is still the current prefetch handle. -/
def prefetchOnSuccess (pid : Nat) (d : GameData) (s : AppState) : AppState :=
  if s.nextGamePromise = some pid then { s with prefetchedGameData := some d } else s

/-- The `.catch` continuation of the prefetch promise `pid`: the handle is
cleared only when `pid` is still the current prefetch handle. -/
def prefetchOnFailure (pid : Nat) (s : AppState) : AppState :=
  if s.nextGamePromise = some pid then { s with nextGamePromise := none } else s

/-- Style selection plus the invalidation effect over `imageStyle`: when the
style actually changes and the prefetch slot holds ready data or a pending
handle, both are cleared. -/
def handleStyleChange (style : String) (s : AppState) : AppState :=
  if style = s.imageStyle then s
  else
    let s1 := { s with imageStyle := style }
    if s1.prefetchedGameData.isSome ∨ s1.nextGamePromise.isSome then
      { s1 with prefetchedGameData := none, nextGamePromise := none }
    else s1

/-- How `startNewGame` obtains the content for the round: consume ready
prefetched data (no provider call), await the already-pending prefetch
handle (no duplicate call), or issue one fresh provider call with the given
exclusion list and style. -/
inductive FetchPlan
  | usePrefetched (d : GameData)
  | awaitPending (pid : Nat)
  | freshCall (exclude : List String) (style : String)
deriving DecidableEq

/-- Result of the synchronous prefix of `startNewGame`: the state at the
suspension point, the `roundId` the closure captured, and the content plan
(`none` when the Loading guard returned early and no fetch was started). -/
structure StartResult where
  state : AppState
  capturedRoundId : Nat
  plan : Option FetchPlan
deriving DecidableEq

/-- The mutations `startNewGame` performs after passing the Loading guard
and before resolving content: status → Loading with the thinking message,
the Next-round notice when the previous round had finished, timer cleanup,
clearing of error/guess/flag/image, the Level-1 notice on the very first
game, and the thinking AI event. -/
def startRoundSetup (s0 : AppState) : AppState :=
  let wasRoundFinished := s0.gameStatus = GameStatus.won ∨ s0.gameStatus = GameStatus.lost
  let isFirstGame := s0.pastConcepts.length = 0
  let s1 := { s0 with gameStatus := GameStatus.loading, loadingMessage := "thinking" }
  let s2 := if wasRoundFinished then emitEvent { forUser := some "Next round." } s1 else s1
  let s3 := { s2 with timerActive := false, error := none, guessValue := "",
                      isWrongGuess := false, imageUrl := "" }
  let s4 := if isFirstGame then emitEvent { forUser := some "Starting on Level 1." } s3 else s3
  emitEvent thinkingAIEvent s4

/-- The synchronous prefix of `startNewGame`, faithful to the source order:
the round id is incremented before the Loading guard; then the setup
mutations of `startRoundSetup`, and content resolution against the
prefetch slot (ready data first, then a pending handle, else a fresh
provider call excluding `pastConcepts`). -/
def startNewGame (s : AppState) : StartResult :=
  let roundId := s.roundId + 1
  let s0 := { s with roundId := roundId }
  if s0.gameStatus = GameStatus.loading then
    { state := s0, capturedRoundId := roundId, plan := none }
  else
    let s5 := startRoundSetup s0
    match s5.prefetchedGameData with
    | some d =>
        let s6 := { s5 with prefetchedGameData := none, nextGamePromise := none }
        { state := { s6 with loadingMessage := "generating" },
          capturedRoundId := roundId, plan := some (FetchPlan.usePrefetched d) }
    | none =>
        match s5.nextGamePromise with
        | some pid =>
            { state := { s5 with nextGamePromise := none, loadingMessage := "generating" },
              capturedRoundId := roundId, plan := some (FetchPlan.awaitPending pid) }
        | none =>
            { state := { s5 with loadingMessage := "generating" },
              capturedRoundId := roundId,
              plan := some (FetchPlan.freshCall s5.pastConcepts s5.imageStyle) }

/-- The continuation of `startNewGame` after `await promiseToAwait`
succeeds, including `handleGameData`: a completion whose captured round id
no longer matches the live one returns without touching state; otherwise the
content is committed, `timeLeft` reset, the concept appended to
`pastConcepts`, the kickoff AI event emitted, and status → Playing. -/
def onFetchSuccess (roundId : Nat) (gameData : GameData) (s : AppState) : AppState :=
  if s.roundId ≠ roundId then s
  else
    let s1 := { s with imageUrl := gameData.imageUrl, answer := gameData.concept,
                       explanation := gameData.explanation, timeLeft := ROUND_TIME,
                       pastConcepts := s.pastConcepts ++ [gameData.concept] }
    let s2 := emitEvent (kickoffAIEvent gameData.concept gameData.explanation) s1
    { s2 with gameStatus := GameStatus.playing }

/-- The `catch` branch of `startNewGame`: a stale failure is logged and
ignored; a live one surfaces the message, returns to Idle and clears the
prefetch slot entirely. -/
def onFetchFailure (roundId : Nat) (msg : String) (s : AppState) : AppState :=
  if s.roundId ≠ roundId then s
  else { s with error := some msg, gameStatus := GameStatus.idle,
                prefetchedGameData := none, nextGamePromise := none }

/-- `handleResetGame`: bump the round id, stop the timer, and restore every
round/score field to its initial value.  The prefetch slot
(`prefetchedGameData`, `nextGamePromise`) is not touched by the source. -/
def handleResetGame (s : AppState) : AppState :=
  { s with roundId := s.roundId + 1, timerActive := false,
           gameStatus := GameStatus.idle, imageUrl := "", answer := "",
           explanation := "", guessValue := "", isWrongGuess := false,
           timeLeft := ROUND_TIME, error := none, loadingMessage := "",
           pastConcepts := [], score := 0, level := 1 }

/-- The timer-arming effect: while Playing with time remaining, an interval
timer is active. -/
def timerEffect (s : AppState) : AppState :=
  if s.gameStatus = GameStatus.playing ∧ 0 < s.timeLeft then
    { s with timerActive := true }
  else s

/-! ## Basic lemmas about the round-start prefix -/

theorem startRoundSetup_roundId (s : AppState) :
    (startRoundSetup s).roundId = s.roundId := by
  simp only [startRoundSetup, emitEvent]
  split <;> split <;> rfl

theorem startRoundSetup_prefetchedGameData (s : AppState) :
    (startRoundSetup s).prefetchedGameData = s.prefetchedGameData := by
  simp only [startRoundSetup, emitEvent]
  split <;> split <;> rfl

theorem startRoundSetup_nextGamePromise (s : AppState) :
    (startRoundSetup s).nextGamePromise = s.nextGamePromise := by
  simp only [startRoundSetup, emitEvent]
  split <;> split <;> rfl

theorem startRoundSetup_pastConcepts (s : AppState) :
    (startRoundSetup s).pastConcepts = s.pastConcepts := by
  simp only [startRoundSetup, emitEvent]
  split <;> split <;> rfl

theorem startRoundSetup_imageStyle (s : AppState) :
    (startRoundSetup s).imageStyle = s.imageStyle := by
  simp only [startRoundSetup, emitEvent]
  split <;> split <;> rfl

theorem startNewGame_roundId (s : AppState) :
    (startNewGame s).state.roundId = s.roundId + 1 ∧
      (startNewGame s).capturedRoundId = s.roundId + 1 := by
  unfold startNewGame
  simp only []
  split
  · exact ⟨rfl, rfl⟩
  · rcases hd : (startRoundSetup { s with roundId := s.roundId + 1 }).prefetchedGameData with _ | d
    · rcases hp : (startRoundSetup { s with roundId := s.roundId + 1 }).nextGamePromise with _ | pid
      · simp only [hd, hp]
        refine ⟨startRoundSetup_roundId _, by trivial⟩
      · simp only [hd, hp]
        refine ⟨startRoundSetup_roundId _, by trivial⟩
    · simp only [hd]
      refine ⟨startRoundSetup_roundId _, by trivial⟩

/-- C1: under any sequence of overlapping `startRound()` calls, every call
strictly bumps the live round id and captures exactly that id, so at any
moment only the most recent call's captured id matches the live one; a
fetch completion (success or failure) whose captured id differs from the
live id is discarded as the identity on state (hence without raising an
error), and only a completion whose captured id equals the live id commits
answer, explanation, imageUrl, pastConcepts and status. -/
theorem startRound_stale_completions_discarded :
    (∀ (s : AppState) (rid : Nat) (d : GameData),
        rid ≠ s.roundId → onFetchSuccess rid d s = s) ∧
    (∀ (s : AppState) (rid : Nat) (msg : String),
        rid ≠ s.roundId → onFetchFailure rid msg s = s) ∧
    (∀ s : AppState,
        (startNewGame s).capturedRoundId = (startNewGame s).state.roundId ∧
        (startNewGame s).state.roundId = s.roundId + 1 ∧
        (startNewGame s).capturedRoundId ≠
          (startNewGame (startNewGame s).state).state.roundId) ∧
    (∀ (s : AppState) (d : GameData),
        (onFetchSuccess s.roundId d s).answer = d.concept ∧
        (onFetchSuccess s.roundId d s).explanation = d.explanation ∧
        (onFetchSuccess s.roundId d s).imageUrl = d.imageUrl ∧
        (onFetchSuccess s.roundId d s).pastConcepts = s.pastConcepts ++ [d.concept] ∧
        (onFetchSuccess s.roundId d s).gameStatus = GameStatus.playing) := by
  refine ⟨?_, ?_, ?_, ?_⟩
  · intro s rid d h
    unfold onFetchSuccess
    rw [if_pos (Ne.symm h)]
  · intro s rid msg h
    unfold onFetchFailure
    rw [if_pos (Ne.symm h)]
  · intro s
    obtain ⟨h1, h2⟩ := startNewGame_roundId s
    obtain ⟨h3, h4⟩ := startNewGame_roundId (startNewGame s).state
    refine ⟨h2.trans h1.symm, h1, ?_⟩
    rw [h2, h3, h1]
    omega
  · intro s d
    unfold onFetchSuccess
    rw [if_neg (by simp)]
    simp [emitEvent]

/-- Witness for C1 at concrete inputs: a completion captured under round id
5 against a live round id 0 is discarded unchanged, and a completion
captured under the live id 0 commits its concept. -/
theorem startRound_stale_completions_discarded_witness :
    ((5 : Nat) ≠ initialState.roundId ∧
      onFetchSuccess 5 { concept := "Inception", explanation := "e", imageUrl := "u" }
        initialState = initialState) ∧
    (onFetchSuccess initialState.roundId
        { concept := "Inception", explanation := "e", imageUrl := "u" }
        initialState).answer = "Inception" :=
  ⟨⟨by decide,
    startRound_stale_completions_discarded.1 initialState 5
      { concept := "Inception", explanation := "e", imageUrl := "u" } (by decide)⟩,
   (startRound_stale_completions_discarded.2.2.2 initialState
      { concept := "Inception", explanation := "e", imageUrl := "u" }).1⟩

/-! ## Claim C2: startRound while Loading -/

/-- A state mid-fetch: round 1 is Loading. -/
def loadingState : AppState :=
  { initialState with gameStatus := GameStatus.loading, roundId := 1,
                      loadingMessage := "generating" }

/-- C2 counterexample: with a round Loading under round id 1, a further
`startRound()` call is not a no-op — it increments the live round id to 2
(the increment precedes the Loading guard in the source), so the state is
changed. -/
theorem startRound_while_loading_counterexample :
    loadingState.gameStatus = GameStatus.loading ∧
    loadingState.roundId = 1 ∧
    (startNewGame loadingState).state.roundId = 2 ∧
    (startNewGame loadingState).state ≠ loadingState := by
  decide

/-- C2 (amended): when a round is Loading, `startRound()` issues no content
fetch and emits no notification, and leaves every field unchanged except
`roundId`, which is incremented by one. -/
theorem startRound_while_loading (s : AppState)
    (h : s.gameStatus = GameStatus.loading) :
    (startNewGame s).state = { s with roundId := s.roundId + 1 } ∧
    (startNewGame s).plan = none ∧
    (startNewGame s).state.events = s.events := by
  unfold startNewGame
  rw [if_pos (by simpa using h)]
  exact ⟨rfl, rfl, rfl⟩

/-- Witness for C2 (amended) at the concrete Loading state. -/
theorem startRound_while_loading_witness :
    (startNewGame loadingState).state = { loadingState with roundId := 2 } ∧
    (startNewGame loadingState).plan = none := by
  have h := startRound_while_loading loadingState rfl
  exact ⟨by rw [h.1]; decide, h.2.1⟩

/-! ## Claim C3: resetGame -/

def d0 : GameData :=
  { concept := "Inception", explanation := "spinning top", imageUrl := "data:img" }

/-- A finished round holding both a ready prefetched record and a pending
prefetch handle. -/
def stateWithPrefetch : AppState :=
  { initialState with gameStatus := GameStatus.lost, answer := "Up", score := 3,
                      pastConcepts := ["Up"], roundId := 4,
                      prefetchedGameData := some d0, nextGamePromise := some 7 }

/-- C3 counterexample: `resetGame()` does not clear the prefetch slot — the
ready content and pending handle survive the reset — and two consecutive
resets do not yield the same state as one (the round id differs). -/
theorem resetGame_counterexample :
    (handleResetGame stateWithPrefetch).prefetchedGameData = some d0 ∧
    (handleResetGame stateWithPrefetch).nextGamePromise = some 7 ∧
    handleResetGame (handleResetGame stateWithPrefetch) ≠
      handleResetGame stateWithPrefetch := by
  decide

/-- C3 (amended): `resetGame()` is permitted from every state and always
yields status Idle with score 0, level 1, no past concepts, the timer
stopped and a strictly greater fresh round id; the prefetch slot (ready
content and pending handle) is left unchanged, not cleared; and a second
consecutive reset yields the same state as the first except for the round
id, which grows by one more. -/
theorem resetGame_behavior (s : AppState) :
    (handleResetGame s).gameStatus = GameStatus.idle ∧
    (handleResetGame s).score = 0 ∧
    (handleResetGame s).level = 1 ∧
    (handleResetGame s).pastConcepts = [] ∧
    (handleResetGame s).timerActive = false ∧
    (handleResetGame s).roundId = s.roundId + 1 ∧
    s.roundId < (handleResetGame s).roundId ∧
    (handleResetGame s).prefetchedGameData = s.prefetchedGameData ∧
    (handleResetGame s).nextGamePromise = s.nextGamePromise ∧
    handleResetGame (handleResetGame s) =
      { handleResetGame s with roundId := s.roundId + 2 } := by
  refine ⟨rfl, rfl, rfl, rfl, rfl, rfl, Nat.lt_succ_self _, rfl, rfl, rfl⟩

/-! ## Claim C4: the wrong-guess clearing timeout -/

def c4Next : GameData := { concept := "It", explanation := "balloon", imageUrl := "img2" }

/-- Round 1 in progress: answer "Up", next round already prefetched. -/
def c4Round1 : AppState :=
  { initialState with gameStatus := GameStatus.playing, answer := "Up",
                      explanation := "house", roundId := 1, pastConcepts := ["Up"],
                      timeLeft := 5, timerActive := true,
                      prefetchedGameData := some c4Next }

/-- The state after: a wrong full-length guess in round 1 (scheduling the
1-second clear), the round timing out, the next round starting and
committing its prefetched content under round id 2, and the player typing
"i" into the new round. -/
def c4AfterNewRoundInput : AppState :=
  submitInput "i"
    (onFetchSuccess 2 c4Next
      (startNewGame (handleTimeUp (submitInput "no" c4Round1))).state)

/-- C4 counterexample: the round-1 clearing timeout is still pending when
round 2 is live with guess "i"; firing it erases round 2's guess, so the
deferred action is guarded by neither time nor round identity and does
mutate a subsequently started round's guess. -/
theorem wrongGuess_timeout_counterexample :
    c4AfterNewRoundInput.roundId = 2 ∧
    c4AfterNewRoundInput.gameStatus = GameStatus.playing ∧
    c4AfterNewRoundInput.guessValue = "i" ∧
    c4AfterNewRoundInput.pendingClears = [1000] ∧
    (wrongGuessTimeoutFire c4AfterNewRoundInput).guessValue = "" := by
  decide

/-- C4 (amended): the deferred action scheduled by the wrong-guess path
fires after exactly 1 second (delay 1000 ms) and clears the guess and the
wrong-guess flag unconditionally — it is guarded only by component mount,
not by round identity; it touches no other round state and is idempotent on
the fields it clears, but if a subsequently started round has accepted
input before it fires, that round's guess is cleared too. -/
theorem wrongGuess_timeout_behavior (s : AppState) :
    (handleIncorrectGuess s).isWrongGuess = true ∧
    (handleIncorrectGuess s).pendingClears = s.pendingClears ++ [1000] ∧
    (wrongGuessTimeoutFire s).guessValue = "" ∧
    (wrongGuessTimeoutFire s).isWrongGuess = false ∧
    (wrongGuessTimeoutFire s).roundId = s.roundId ∧
    (wrongGuessTimeoutFire s).gameStatus = s.gameStatus ∧
    (wrongGuessTimeoutFire s).answer = s.answer ∧
    (wrongGuessTimeoutFire s).score = s.score ∧
    (wrongGuessTimeoutFire s).level = s.level ∧
    (wrongGuessTimeoutFire s).pastConcepts = s.pastConcepts ∧
    (wrongGuessTimeoutFire s).events = s.events ∧
    wrongGuessTimeoutFire (wrongGuessTimeoutFire s) =
      { wrongGuessTimeoutFire s with
          pendingClears := (wrongGuessTimeoutFire s).pendingClears.drop 1 } := by
  exact ⟨rfl, rfl, rfl, rfl, rfl, rfl, rfl, rfl, rfl, rfl, rfl, rfl⟩

/-! ## Claim C5: content resolution order in startRound -/

/-- C5: with the Loading guard passed, `startRound()` resolves content with
ready prefetched data first (consumed, slot fully cleared, no provider
call), else the pending prefetch handle (awaited as-is, handle taken out of
the slot, no duplicate call), else exactly one fresh provider call whose
exclusion list is `pastConcepts` and whose style is the current one. -/
theorem startRound_content_resolution (s : AppState)
    (h : s.gameStatus ≠ GameStatus.loading) :
    (∀ d : GameData, s.prefetchedGameData = some d →
        (startNewGame s).plan = some (FetchPlan.usePrefetched d) ∧
        (startNewGame s).state.prefetchedGameData = none ∧
        (startNewGame s).state.nextGamePromise = none) ∧
    (∀ pid : Nat, s.prefetchedGameData = none → s.nextGamePromise = some pid →
        (startNewGame s).plan = some (FetchPlan.awaitPending pid) ∧
        (startNewGame s).state.nextGamePromise = none) ∧
    (s.prefetchedGameData = none → s.nextGamePromise = none →
        (startNewGame s).plan =
          some (FetchPlan.freshCall s.pastConcepts s.imageStyle)) := by
  refine ⟨?_, ?_, ?_⟩
  · intro d hd
    unfold startNewGame
    simp only []
    rw [if_neg h]
    generalize hT : startRoundSetup { s with roundId := s.roundId + 1 } = T
    have h1 : T.prefetchedGameData = some d := by
      rw [← hT, startRoundSetup_prefetchedGameData]; exact hd
    rw [h1]
    exact ⟨rfl, rfl, rfl⟩
  · intro pid hd hp
    unfold startNewGame
    simp only []
    rw [if_neg h]
    generalize hT : startRoundSetup { s with roundId := s.roundId + 1 } = T
    have h1 : T.prefetchedGameData = none := by
      rw [← hT, startRoundSetup_prefetchedGameData]; exact hd
    have h2 : T.nextGamePromise = some pid := by
      rw [← hT, startRoundSetup_nextGamePromise]; exact hp
    rw [h1, h2]
    exact ⟨rfl, rfl⟩
  · intro hd hp
    unfold startNewGame
    simp only []
    rw [if_neg h]
    generalize hT : startRoundSetup { s with roundId := s.roundId + 1 } = T
    have h1 : T.prefetchedGameData = none := by
      rw [← hT, startRoundSetup_prefetchedGameData]; exact hd
    have h2 : T.nextGamePromise = none := by
      rw [← hT, startRoundSetup_nextGamePromise]; exact hp
    have h3 : T.pastConcepts = s.pastConcepts := by
      rw [← hT, startRoundSetup_pastConcepts]
    have h4 : T.imageStyle = s.imageStyle := by
      rw [← hT, startRoundSetup_imageStyle]
    rw [h1, h2, h3, h4]

/-- A finished round with ready prefetched content. -/
def readyState : AppState :=
  { initialState with gameStatus := GameStatus.lost, prefetchedGameData := some d0 }

/-- A finished round with a pending prefetch handle. -/
def pendingState : AppState :=
  { initialState with gameStatus := GameStatus.lost, nextGamePromise := some 7 }

/-- Witness for C5 at concrete states exercising all three branches. -/
theorem startRound_content_resolution_witness :
    (startNewGame readyState).plan = some (FetchPlan.usePrefetched d0) ∧
    (startNewGame pendingState).plan = some (FetchPlan.awaitPending 7) ∧
    (startNewGame initialState).plan = some (FetchPlan.freshCall [] "pixel art") :=
  ⟨((startRound_content_resolution readyState (by decide)).1 d0 rfl).1,
   ((startRound_content_resolution pendingState (by decide)).2.1 7 rfl rfl).1,
   (startRound_content_resolution initialState (by decide)).2.2 rfl rfl⟩

/-! ## Claim C6: the wrong-guess lock -/

/-- C6: while the wrong-guess flag is set, both guess mutators are
no-ops; an incorrect full-length guess sets the flag and schedules the
clearing action with a delay of exactly 1000 ms; and when that action
fires the guess is cleared and the flag unset. -/
theorem wrongGuess_lock :
    (∀ s : AppState, s.isWrongGuess = true →
        (∀ v, handleGuessChange v s = s) ∧ (∀ raw, handleInput raw s = s)) ∧
    (∀ s : AppState,
        (handleIncorrectGuess s).isWrongGuess = true ∧
        (handleIncorrectGuess s).pendingClears = s.pendingClears ++ [1000] ∧
        (handleIncorrectGuess s).guessValue = s.guessValue) ∧
    (∀ s : AppState,
        (wrongGuessTimeoutFire s).guessValue = "" ∧
        (wrongGuessTimeoutFire s).isWrongGuess = false) := by
  refine ⟨?_, fun s => ⟨rfl, rfl, rfl⟩, fun s => ⟨rfl, rfl⟩⟩
  intro s hs
  constructor
  · intro v
    simp [handleGuessChange, hs]
  · intro raw
    simp [handleInput, hs]

/-- A playing state locked by a just-rejected wrong guess. -/
def flaggedState : AppState :=
  { initialState with gameStatus := GameStatus.playing, answer := "Up",
                      guessValue := "no", isWrongGuess := true, pendingClears := [1000] }

/-- Witness for C6: both mutators reject on the concrete locked state. -/
theorem wrongGuess_lock_witness :
    flaggedState.isWrongGuess = true ∧
    handleGuessChange "x" flaggedState = flaggedState ∧
    handleInput "x" flaggedState = flaggedState :=
  ⟨rfl, (wrongGuess_lock.1 flaggedState rfl).1 "x",
    (wrongGuess_lock.1 flaggedState rfl).2 "x"⟩

/-! ## Claim C7: the guess never outgrows the sanitized answer -/

theorem asString_length (l : List Char) : l.asString.length = l.length := rfl

theorem evaluateGuess_answer_guess (s : AppState) :
    (evaluateGuess s).answer = s.answer ∧ (evaluateGuess s).guessValue = s.guessValue := by
  unfold evaluateGuess handleCorrectGuess handleIncorrectGuess emitEvent
  simp only []
  repeat' split
  all_goals exact ⟨rfl, rfl⟩

theorem handleInput_cases (s : AppState) (raw : String) :
    handleInput raw s = s ∨
    handleInput raw s = { s with guessValue :=
      ((sanitizeInput raw).toList.take (stripWhitespace s.answer).length).asString } := by
  unfold handleInput handleGuessChange
  simp only []
  split
  · exact Or.inl rfl
  · split
    · exact Or.inl rfl
    · exact Or.inr rfl

theorem submitInput_answer_bound (s : AppState) (raw : String)
    (h : s.guessValue.length ≤ (stripWhitespace s.answer).length) :
    (submitInput raw s).answer = s.answer ∧
    (submitInput raw s).guessValue.length ≤ (stripWhitespace s.answer).length := by
  unfold submitInput
  obtain ⟨ha, hg⟩ := evaluateGuess_answer_guess (handleInput raw s)
  rcases handleInput_cases s raw with hc | hc <;> rw [hc] at ha hg ⊢
  · exact ⟨ha, by rw [hg]; exact h⟩
  · refine ⟨ha, ?_⟩
    rw [hg, asString_length, List.length_take]
    exact min_le_left _ _

theorem runInputs_bound (raws : List String) : ∀ s : AppState,
    s.guessValue.length ≤ (stripWhitespace s.answer).length →
    (runInputs raws s).answer = s.answer ∧
    (runInputs raws s).guessValue.length ≤ (stripWhitespace s.answer).length := by
  induction raws with
  | nil => exact fun s h => ⟨rfl, h⟩
  | cons r rest ih =>
      intro s h
      have hstep := submitInput_answer_bound s r h
      have hrun : runInputs (r :: rest) s = runInputs rest (submitInput r s) := rfl
      have hnext := ih (submitInput r s)
        (by rw [hstep.1]; exact hstep.2)
      refine ⟨?_, ?_⟩
      · rw [hrun, hnext.1, hstep.1]
      · rw [hrun]
        have h2 := hnext.2
        rw [hstep.1] at h2
        exact h2

/-- C7: over any sequence of raw inputs, the answer never changes and the
accumulated guess never exceeds the whitespace-stripped answer's length;
moreover an accepted keystroke stores exactly the raw value stripped of
non-alphanumerics and truncated to that length. -/
theorem guess_length_invariant (s : AppState) (raws : List String)
    (h : s.guessValue.length ≤ (stripWhitespace s.answer).length) :
    (runInputs raws s).answer = s.answer ∧
    (runInputs raws s).guessValue.length ≤ (stripWhitespace s.answer).length ∧
    (∀ raw, s.gameStatus = GameStatus.playing → s.isWrongGuess = false →
        (handleInput raw s).guessValue =
          ((sanitizeInput raw).toList.take (stripWhitespace s.answer).length).asString) := by
  obtain ⟨h1, h2⟩ := runInputs_bound raws s h
  refine ⟨h1, h2, ?_⟩
  intro raw hplay hflag
  simp [handleInput, handleGuessChange, hplay, hflag]

/-- Round holding the answer "Die Hard" (sanitized length 7). -/
def dieHardPlaying : AppState :=
  { initialState with gameStatus := GameStatus.playing, answer := "Die Hard",
                      explanation := "e", roundId := 1, pastConcepts := ["Die Hard"],
                      timerActive := true }

/-- Witness for C7: an overlong noisy input against "Die Hard" leaves the
guess within the sanitized length 7. -/
theorem guess_length_invariant_witness :
    (runInputs ["die hard!! overflow"] dieHardPlaying).guessValue.length ≤
      (stripWhitespace dieHardPlaying.answer).length :=
  (guess_length_invariant dieHardPlaying ["die hard!! overflow"] (by decide)).2.1

/-! ## Claim C8: case-insensitive, whitespace-ignoring win detection -/

/-- C8: while Playing with a non-empty answer and no wrong-guess lock, a
guess of exactly the sanitized answer's length is compared lowercased
against the whitespace-stripped answer — equality takes the win path and
inequality the wrong-guess path; concretely, "Die Hard" sanitizes to
"DieHard" and typing "diehard" wins the round. -/
theorem guess_evaluation_cases :
    (∀ s : AppState, s.gameStatus = GameStatus.playing → s.answer ≠ "" →
        s.isWrongGuess = false →
        s.guessValue.length = (stripWhitespace s.answer).length →
        (toLowerStr s.guessValue = toLowerStr (stripWhitespace s.answer) →
            evaluateGuess s = handleCorrectGuess s) ∧
        (toLowerStr s.guessValue ≠ toLowerStr (stripWhitespace s.answer) →
            evaluateGuess s = handleIncorrectGuess s)) ∧
    stripWhitespace "Die Hard" = "DieHard" ∧
    (submitInput "diehard" dieHardPlaying).gameStatus = GameStatus.won := by
  refine ⟨?_, by decide, by decide⟩
  intro s h1 h2 h3 h4
  constructor
  · intro heq
    unfold evaluateGuess
    rw [if_neg (by simp [h1, h2, h3])]
    simp only []
    rw [if_pos h4, if_pos heq]
  · intro hne
    unfold evaluateGuess
    rw [if_neg (by simp [h1, h2, h3])]
    simp only []
    rw [if_pos h4, if_neg hne]

/-- The "Die Hard" round with the full guess "diehard" accumulated. -/
def dieHardGuessed : AppState := { dieHardPlaying with guessValue := "diehard" }

/-- Witness for C8: the comparison on the concrete "Die Hard" round takes
the win path. -/
theorem guess_evaluation_cases_witness :
    evaluateGuess dieHardGuessed = handleCorrectGuess dieHardGuessed :=
  (guess_evaluation_cases.1 dieHardGuessed (by decide) (by decide) (by decide)
      (by decide)).1 (by decide)

/-! ## Claim C9: win path score, level and notification order -/

/-- C9: a win increments the score by exactly one and re-establishes
`level = score / 5 + 1`; when the level increases, the emitted sequence is
the Correct notice, then the level-up notice, then the notification
carrying the answer and explanation — the level-up strictly precedes the
explanation; otherwise no level-up notice appears. -/
theorem win_path_score_level (s : AppState) (hp : s.gameStatus = GameStatus.playing)
    (hl : s.level = s.score / 5 + 1) :
    (handleCorrectGuess s).score = s.score + 1 ∧
    (handleCorrectGuess s).level = (s.score + 1) / 5 + 1 ∧
    ((s.score + 1) / 5 + 1 > s.level →
        (handleCorrectGuess s).events = s.events ++
          [{ forUser := some "Correct." },
           levelUpEvent ((s.score + 1) / 5 + 1),
           winAIEvent s.answer s.explanation (levelCongrats ((s.score + 1) / 5 + 1))]) ∧
    (¬ (s.score + 1) / 5 + 1 > s.level →
        (handleCorrectGuess s).events = s.events ++
          [{ forUser := some "Correct." }, winAIEvent s.answer s.explanation ""]) := by
  unfold handleCorrectGuess emitEvent
  rw [if_neg (by simp [hp])]
  simp only []
  split
  · next hgt =>
    refine ⟨rfl, rfl, fun _ => ?_, fun hng => absurd hgt hng⟩
    simp
  · next hng =>
    refine ⟨rfl, ?_, fun hgt => absurd hgt hng, fun _ => ?_⟩
    · show s.level = (s.score + 1) / 5 + 1
      omega
    · simp

/-- A round about to cross the level boundary: score 4, level 1. -/
def preLevelUpState : AppState :=
  { initialState with gameStatus := GameStatus.playing, answer := "Up",
                      explanation := "e", score := 4 }

/-- Witness for C9: winning at score 4 reaches score 5, level 2, with the
level-up notice emitted strictly before the answer/explanation event. -/
theorem win_path_score_level_witness :
    (handleCorrectGuess preLevelUpState).score = 5 ∧
    (handleCorrectGuess preLevelUpState).level = 2 ∧
    (handleCorrectGuess preLevelUpState).events =
      [{ forUser := some "Correct." }, levelUpEvent 2,
       winAIEvent "Up" "e" (levelCongrats 2)] := by
  obtain ⟨h1, h2, h3, _⟩ := win_path_score_level preLevelUpState rfl rfl
  refine ⟨h1, h2, ?_⟩
  rw [h3 (by decide)]
  rfl

/-! ## Claim C10: prefetch completion guarded by handle identity -/

/-- C10: a prefetch success is stored only while its promise is still the
slot's current pending handle, a prefetch failure clears the handle only
while it is still current, and both are identities otherwise (after the
handle was replaced or cleared); a style change clears both the ready
content and the pending handle. -/
theorem prefetch_completion_guard :
    (∀ (s : AppState) (pid : Nat) (d : GameData), s.nextGamePromise = some pid →
        prefetchOnSuccess pid d s = { s with prefetchedGameData := some d }) ∧
    (∀ (s : AppState) (pid : Nat) (d : GameData), s.nextGamePromise ≠ some pid →
        prefetchOnSuccess pid d s = s) ∧
    (∀ (s : AppState) (pid : Nat), s.nextGamePromise = some pid →
        prefetchOnFailure pid s = { s with nextGamePromise := none }) ∧
    (∀ (s : AppState) (pid : Nat), s.nextGamePromise ≠ some pid →
        prefetchOnFailure pid s = s) ∧
    (∀ (s : AppState) (style : String), style ≠ s.imageStyle →
        (handleStyleChange style s).prefetchedGameData = none ∧
        (handleStyleChange style s).nextGamePromise = none) := by
  refine ⟨?_, ?_, ?_, ?_, ?_⟩
  · intro s pid d h
    unfold prefetchOnSuccess
    rw [if_pos h]
  · intro s pid d h
    unfold prefetchOnSuccess
    rw [if_neg h]
  · intro s pid h
    unfold prefetchOnFailure
    rw [if_pos h]
  · intro s pid h
    unfold prefetchOnFailure
    rw [if_neg h]
  · intro s style h
    unfold handleStyleChange
    rw [if_neg h]
    simp only []
    split
    · exact ⟨rfl, rfl⟩
    · next hcond =>
      rw [not_or] at hcond
      exact ⟨Option.not_isSome_iff_eq_none.mp hcond.1,
             Option.not_isSome_iff_eq_none.mp hcond.2⟩

/-- Witness for C10 at concrete states: a stale success is a no-op, a live
success stores the data, a live failure clears the handle, and a style
change empties the slot. -/
theorem prefetch_completion_guard_witness :
    prefetchOnSuccess 9 d0 initialState = initialState ∧
    prefetchOnSuccess 7 d0 pendingState =
      { pendingState with prefetchedGameData := some d0 } ∧
    prefetchOnFailure 7 pendingState = { pendingState with nextGamePromise := none } ∧
    (handleStyleChange "oil painting" pendingState).nextGamePromise = none :=
  ⟨prefetch_completion_guard.2.1 initialState 9 d0 (by decide),
   prefetch_completion_guard.1 pendingState 7 d0 rfl,
   prefetch_completion_guard.2.2.1 pendingState 7 rfl,
   (prefetch_completion_guard.2.2.2.2 pendingState "oil painting" (by decide)).2⟩
